import Mathlib

/-!
# honest-impressions: the interaction webhook

A shallow embedding of `main.go`: the handler `HandleNewImpression` and the
outbound client `OpenImpressionModal`, written as pure functions over an
explicit record of the effects a run has (the response writer, the log, the
outbound calls).  What the Go standard library does outside the program
(the text syntax of JSON, the network round trip) is a parameter of the
model, collected in `Env`.
-/

set_option autoImplicit false

namespace HonestImpressions

/-! ## JSON documents -/

/-- A JSON document.  A number keeps its literal, as `encoding/json` does
until a destination type asks for a conversion. -/
inductive JSON where
  | null
  | bool (b : Bool)
  | num (lit : String)
  | str (s : String)
  | arr (xs : List JSON)
  | obj (kvs : List (String × JSON))

namespace JSON

/-- The name `encoding/json` gives the kind of a value in an
`UnmarshalTypeError`. -/
def kind : JSON → String
  | null => "null"
  | bool _ => "bool"
  | num _ => "number"
  | str _ => "string"
  | arr _ => "array"
  | obj _ => "object"

/-- Member `k` of an object (the first one of that name), `none` for a
document that is not an object or has no such member. -/
def get? : JSON → String → Option JSON
  | obj kvs, k => kvs.lookup k
  | _, _ => none

end JSON

/-! ## Go maps and the decoded payload -/

/-- A Go `map[string]α`, as the list of its bindings, most recent first.
The nil map and the empty map are both `[]`: the program only reads. -/
abbrev GoMap (α : Type) := List (String × α)

namespace GoMap

/-- Go's `m[k]`: the value bound to `k`, the zero value of the element type
when `k` is not in the map. -/
def index {α : Type} (zero : α) (m : GoMap α) (k : String) : α :=
  (m.lookup k).getD zero

/-- Go's `m[k] = v`. -/
def set {α : Type} (m : GoMap α) (k : String) (v : α) : GoMap α :=
  (k, v) :: m

end GoMap

/-- The element type of the inner map: `struct { Value string }`, tagged
`json:"value"`. -/
structure Entry where
  Value : String

/-- The field `State` of `View`: `struct { Values map[string]map[string]Entry }`. -/
structure State where
  Values : GoMap (GoMap Entry)

/-- The field `View` of the payload. -/
structure View where
  ID : String
  State : State

/-- The anonymous struct `data` that `HandleNewImpression` decodes the
payload into (lines 91 to 102).  `Type_` is its field `Type`. -/
structure Data where
  Type_ : String
  TriggerID : String
  View : View

/-- The zero value of `Entry`. -/
def Entry.zero : Entry := ⟨""⟩

/-- The zero value of `data`, as `var data struct{...}` declares it. -/
def Data.zero : Data := ⟨"", "", ⟨"", ⟨[]⟩⟩⟩

/-! ## Decoding: `json.Unmarshal` into `data` -/

/-- Why `json.Unmarshal` failed: the text is not JSON, or a value does not
fit the Go type it is decoded into (`value` is the JSON kind). -/
inductive UnmarshalError where
  | SyntaxError
  | UnmarshalTypeError (value : String)

/-- One rune of a folded name: ASCII letters go to upper case; of the other
runes, U+017F and U+212A are the two whose simple case folding reaches an
ASCII letter.  Every other rune folds to a rune outside ASCII, kept here as
it is: whether a key folds to an ASCII field name does not depend on it. -/
def foldRune (c : Char) : Char :=
  if c.toNat < 128 then c.toUpper
  else if c.toNat = 0x17F then 'S'
  else if c.toNat = 0x212A then 'K'
  else c

/-- The folded form under which `encoding/json` matches an object key to a
struct field when no field has exactly that name. -/
def foldName (s : String) : String :=
  String.mk (s.data.map foldRune)

/-- The struct field an object key decodes into: the field of exactly that
name, else the first field with the same folded name, else none (the member
is skipped). -/
def findField (fields : List String) (key : String) : Option String :=
  match fields.find? (fun f => f == key) with
  | some f => some f
  | none => fields.find? (fun f => foldName f == foldName key)

/-- Decode into a `string`: a JSON string is stored, `null` leaves the
destination as it is, any other value is a type error.  (The decoders stop
at the first type error; `encoding/json` records it and goes on, and returns
it at the end: the caller sees the same error either way.) -/
def decodeString (cur : String) : JSON → Except UnmarshalError String
  | .null => .ok cur
  | .str s => .ok s
  | j => .error (.UnmarshalTypeError j.kind)

/-- Decode into `struct { Value string }`. -/
def decodeEntry (cur : Entry) : JSON → Except UnmarshalError Entry
  | .null => .ok cur
  | .obj kvs =>
    kvs.foldlM (fun (e : Entry) (kv : String × JSON) =>
      match findField ["value"] kv.1 with
      | some _ => (decodeString e.Value kv.2).map (fun s => { e with Value := s })
      | none => .ok e) cur
  | j => .error (.UnmarshalTypeError j.kind)

/-- Decode into a `map[string]α`: an object binds each of its keys, in
order, to the decoding of its value into a fresh zero element; `null`
makes the map nil; any other value is a type error. -/
def decodeMap {α : Type} (decodeElem : α → JSON → Except UnmarshalError α) (zero : α)
    (cur : GoMap α) : JSON → Except UnmarshalError (GoMap α)
  | .null => .ok []
  | .obj kvs =>
    kvs.foldlM (fun (m : GoMap α) (kv : String × JSON) =>
      (decodeElem zero kv.2).map (fun e => m.set kv.1 e)) cur
  | j => .error (.UnmarshalTypeError j.kind)

/-- Decode into `struct { Values map[string]map[string]Entry }`. -/
def decodeState (cur : State) : JSON → Except UnmarshalError State
  | .null => .ok cur
  | .obj kvs =>
    kvs.foldlM (fun (s : State) (kv : String × JSON) =>
      match findField ["values"] kv.1 with
      | some _ =>
        (decodeMap (decodeMap decodeEntry Entry.zero) [] s.Values kv.2).map
          (fun m => { s with Values := m })
      | none => .ok s) cur
  | j => .error (.UnmarshalTypeError j.kind)

/-- Decode into the `View` struct. -/
def decodeView (cur : View) : JSON → Except UnmarshalError View
  | .null => .ok cur
  | .obj kvs =>
    kvs.foldlM (fun (v : View) (kv : String × JSON) =>
      match findField ["id", "state"] kv.1 with
      | some "id" => (decodeString v.ID kv.2).map (fun s => { v with ID := s })
      | some "state" => (decodeState v.State kv.2).map (fun s => { v with State := s })
      | _ => .ok v) cur
  | j => .error (.UnmarshalTypeError j.kind)

/-- Decode into `data`. -/
def decodeData (cur : Data) : JSON → Except UnmarshalError Data
  | .null => .ok cur
  | .obj kvs =>
    kvs.foldlM (fun (d : Data) (kv : String × JSON) =>
      match findField ["type", "trigger_id", "view"] kv.1 with
      | some "type" => (decodeString d.Type_ kv.2).map (fun s => { d with Type_ := s })
      | some "trigger_id" =>
        (decodeString d.TriggerID kv.2).map (fun s => { d with TriggerID := s })
      | some "view" => (decodeView d.View kv.2).map (fun v => { d with View := v })
      | _ => .ok d) cur
  | j => .error (.UnmarshalTypeError j.kind)

/-- The call `json.Unmarshal([]byte(payload), &data)`: the text is checked
and read as a document by `parse` (`none`: a syntax error), which is then
decoded into `data`. -/
def Unmarshal (parse : String → Option JSON) (payload : String) (data : Data) :
    Except UnmarshalError Data :=
  match parse payload with
  | none => .error .SyntaxError
  | some j => decodeData data j

/-! ## The inbound request and the response writer -/

/-- The inbound `*http.Request`, as far as the handler looks at it: the
error `r.ParseForm()` returns (`none` for nil) and the parsed body
parameters `r.PostForm`. -/
structure Request where
  ParseForm : Option String
  PostForm : GoMap (List String)

/-- The call `r.PostFormValue(key)`: the first value of the body parameter
`key`, the empty string when there is none. -/
def Request.PostFormValue (r : Request) (key : String) : String :=
  match r.PostForm.lookup key with
  | some (v :: _) => v
  | _ => ""

/-- The `http.ResponseWriter` of one request: the header map, the status
once a header has been written, and the body written so far. -/
structure ResponseWriter where
  Header : GoMap String
  status : Option Nat
  body : String

namespace ResponseWriter

/-- The writer a handler is started with. -/
def new : ResponseWriter := ⟨[], none, ""⟩

/-- The call `w.WriteHeader(code)`: the first call fixes the status, a
later one is ignored. -/
def WriteHeader (w : ResponseWriter) (code : Nat) : ResponseWriter :=
  match w.status with
  | none => { w with status := some code }
  | some _ => w

/-- The call `w.Write(b)`: writes the header with status 200 if none has
been written, then appends `b` to the body. -/
def Write (w : ResponseWriter) (b : String) : ResponseWriter :=
  let w := w.WriteHeader 200
  { w with body := w.body ++ b }

/-- The call `w.Header().Set(k, v)`. -/
def SetHeader (w : ResponseWriter) (k v : String) : ResponseWriter :=
  { w with Header := GoMap.set (w.Header.filter (fun e => e.1 != k)) k v }

/-- The call `w.Header().Del(k)`. -/
def DelHeader (w : ResponseWriter) (k : String) : ResponseWriter :=
  { w with Header := w.Header.filter (fun e => e.1 != k) }

/-- The status the client receives: the one written, or 200 when the
handler returns without having written a header. -/
def StatusCode (w : ResponseWriter) : Nat :=
  w.status.getD 200

end ResponseWriter

def StatusOK : Nat := 200
def StatusBadRequest : Nat := 400
def StatusInternalServerError : Nat := 500

/-- The call `http.Error(w, error, code)`: plain-text headers, the status,
and the message followed by a newline. -/
def Error (w : ResponseWriter) (error : String) (code : Nat) : ResponseWriter :=
  let w := w.DelHeader "Content-Length"
  let w := w.SetHeader "Content-Type" "text/plain; charset=utf-8"
  let w := w.SetHeader "X-Content-Type-Options" "nosniff"
  let w := w.WriteHeader code
  w.Write (error ++ "\n")

/-! ## The outbound call -/

/-- The outbound `*http.Request` that `OpenImpressionModal` builds.  `Body`
is the document whose `json.Marshal` encoding is sent. -/
structure ClientRequest where
  Method : String
  URL : String
  Header : GoMap String
  Body : JSON

/-- The `*http.Response` of the outbound call: its status and the bytes
`io.ReadAll(resp.Body)` yields. -/
structure Response where
  StatusCode : Nat
  Body : String

/-- What the program takes from outside: the text syntax of JSON, and
`http.DefaultClient.Do`, which answers a request with a response or with
the message of a transport error. -/
structure Env where
  parse : String → Option JSON
  Do : ClientRequest → Except String Response

/-- The bot, as far as the two methods read it. -/
structure HonestImpressionsBot where
  Port : String
  SlackToken : String

/-- What a run has done so far: the response writer, the messages logged,
and the outbound calls issued, oldest first. -/
structure Effects where
  w : ResponseWriter
  log : List String
  calls : List ClientRequest

/-- The effects at the start of a request. -/
def Effects.init : Effects := ⟨ResponseWriter.new, [], []⟩

/-- The call `log.Printf` with its message already formatted. -/
def Effects.logPrintf (s : Effects) (msg : String) : Effects :=
  { s with log := s.log ++ [msg] }

/-- A `map[string]string` literal with the keys `type` and `text`. -/
def plainText (text : String) : JSON :=
  .obj [("type", .str "plain_text"), ("text", .str text)]

/-- The `view` that `OpenImpressionModal` builds (lines 132 to 165). -/
def modalView : JSON :=
  .obj [
    ("type", .str "modal"),
    ("title", plainText "So you're here to give an honest impression?"),
    ("submit", plainText "Submit"),
    ("close", plainText "Cancel"),
    ("blocks", .arr [
      .obj [
        ("type", .str "input"),
        ("block_id", .str "impression_input"),
        ("label", plainText "nice... please be honest (but not rude) and keep in mind that even though you're anon, this will be reviewed!"),
        ("element", .obj [
          ("type", .str "plain_text_input"),
          ("action_id", .str "impression_value"),
          ("multiline", .bool true),
          ("placeholder", plainText "[impression here?]")])]])]

/-- The request `OpenImpressionModal` sends for a trigger token (lines 167
to 176): the document `payload` as body, and the two headers. -/
def viewsOpenRequest (bot : HonestImpressionsBot) (triggerID : String) : ClientRequest :=
  let view := modalView
  let payload := JSON.obj [("trigger_id", .str triggerID), ("view", view)]
  { Method := "POST"
    URL := "https://slack.com/api/views.open"
    Header := [("Content-Type", "application/json"),
               ("Authorization", "Bearer " ++ bot.SlackToken)]
    Body := payload }

/-- The method `OpenImpressionModal`: the error it returns (`none` for nil)
and the effects, the outbound call recorded. -/
def OpenImpressionModal (env : Env) (bot : HonestImpressionsBot) (triggerID : String)
    (s : Effects) : Option String × Effects :=
  let req := viewsOpenRequest bot triggerID
  let s := { s with calls := s.calls ++ [req] }
  match env.Do req with
  | .error err => (some err, s)
  | .ok resp =>
    if resp.StatusCode != StatusOK then
      let b := resp.Body
      (some ("slack API error: " ++ b), s)
    else
      (none, s)

/-- The impression the `view_submission` branch reads (line 118):
`data.View.State.Values["impression_input"]["impression_value"].Value`. -/
def impressionOf (data : Data) : String :=
  (GoMap.index Entry.zero (GoMap.index [] data.View.State.Values "impression_input")
    "impression_value").Value

/-- The method `HandleNewImpression` (lines 79 to 129), run on the effects
so far. -/
def HandleNewImpression (env : Env) (bot : HonestImpressionsBot) (r : Request)
    (s : Effects) : Effects :=
  match r.ParseForm with
  | some _ => { s with w := Error s.w "failed to parse form" StatusBadRequest }
  | none =>
    let payload := r.PostFormValue "payload"
    if payload == "" then
      { s with w := Error s.w "missing payload" StatusBadRequest }
    else
      match Unmarshal env.parse payload Data.zero with
      | .error _ => { s with w := Error s.w "invalid JSON payload" StatusBadRequest }
      | .ok data =>
        if data.Type_ == "shortcut" then
          match OpenImpressionModal env bot data.TriggerID s with
          | (some err, s) =>
            let s := s.logPrintf ("Failed to open modal: " ++ err)
            { s with w := Error s.w "failed to open modal" StatusInternalServerError }
          | (none, s) =>
            { s with w := s.w.WriteHeader StatusOK }
        else if data.Type_ == "view_submission" then
          let impression := impressionOf data
          let s := s.logPrintf ("New honest impression : " ++ impression)
          let s := { s with w := s.w.SetHeader "Content-Type" "application/json" }
          { s with w := s.w.Write "\x7b\x7d" }
        else
          { s with w := Error s.w "unsupported interaction type" StatusBadRequest }

/-! ## What the chat platform sends back for a modal -/

/-- The blocks of a view document whose `type` is `input`. -/
def inputBlocks (view : JSON) : List JSON :=
  match view.get? "blocks" with
  | some (.arr blocks) =>
    blocks.filter (fun b =>
      match b.get? "type" with
      | some (.str "input") => true
      | _ => false)
  | _ => []

/-- The `block_id` of a block. -/
def blockID (block : JSON) : Option String :=
  match block.get? "block_id" with
  | some (.str id) => some id
  | _ => none

/-- The `action_id` of the element of a block. -/
def actionID (block : JSON) : Option String :=
  match block.get? "element" with
  | some element =>
    match element.get? "action_id" with
    | some (.str id) => some id
    | _ => none
  | none => none

/-- The `view_submission` document for a modal whose one input, in block
`blockId` under action `actionId`, was submitted with the text `value`. -/
def submissionFor (blockId actionId value : String) : JSON :=
  .obj [("type", .str "view_submission"),
        ("view", .obj [("state", .obj [("values",
          .obj [(blockId, .obj [(actionId, .obj [("value", .str value)])])])])])]

/-! ## Concrete requests and environments -/

/-- The submission of the specification's scenario, as text. -/
def submissionText : String :=
  "\x7b\"type\":\"view_submission\",\"view\":\x7b\"state\":\x7b\"values\":\x7b\"impression_input\":\x7b\"impression_value\":\x7b\"value\":\"great job\"\x7d\x7d\x7d\x7d\x7d\x7d"

/-- The JSON text of a submission with no `view` member. -/
def bareSubmissionText : String := "\x7b\"type\":\"view_submission\"\x7d"

/-- The JSON text of a shortcut invocation. -/
def shortcutText : String :=
  "\x7b\"type\":\"shortcut\",\"trigger_id\":\"12345.98765.abcd2358fdea\"\x7d"

/-- The JSON text of a shortcut payload with no `trigger_id` member. -/
def bareShortcutText : String := "\x7b\"type\":\"shortcut\"\x7d"

/-- The JSON text of the empty object. -/
def emptyObjectText : String := "\x7b\x7d"

/-- A reader of JSON text that knows the five texts above and rejects any
other text. -/
def exampleParse (text : String) : Option JSON :=
  List.lookup text
    [(submissionText, submissionFor "impression_input" "impression_value" "great job"),
     (bareSubmissionText, .obj [("type", .str "view_submission")]),
     (shortcutText,
        .obj [("type", .str "shortcut"), ("trigger_id", .str "12345.98765.abcd2358fdea")]),
     (bareShortcutText, .obj [("type", .str "shortcut")]),
     (emptyObjectText, .obj [])]

/-- An environment in which the chat platform answers every call with the
given status and body. -/
def answeringEnv (status : Nat) (body : String) : Env :=
  ⟨exampleParse, fun _ => .ok ⟨status, body⟩⟩

/-- An environment in which no call reaches the chat platform. -/
def unreachableEnv : Env :=
  ⟨exampleParse, fun _ => .error "dial tcp: connection refused"⟩

/-- A bot with a token. -/
def exampleBot : HonestImpressionsBot := ⟨"8080", "xoxb-token"⟩

/-- The request whose form has the one field `payload`. -/
def requestWith (payload : String) : Request := ⟨none, [("payload", [payload])]⟩

/-- A request whose form has no `payload` field. -/
def requestWithoutPayload : Request := ⟨none, [("token", ["abc"])]⟩

/-! ## Lemmas on the response writer and the client -/

theorem Error_status (w : ResponseWriter) (msg : String) (code : Nat)
    (h : w.status = none) : (Error w msg code).StatusCode = code := by
  simp [Error, ResponseWriter.Write, ResponseWriter.WriteHeader, ResponseWriter.SetHeader,
    ResponseWriter.DelHeader, ResponseWriter.StatusCode, h]

theorem OpenImpressionModal_calls (env : Env) (bot : HonestImpressionsBot)
    (triggerID : String) (s : Effects) :
    (OpenImpressionModal env bot triggerID s).2 =
      { s with calls := s.calls ++ [viewsOpenRequest bot triggerID] } := by
  unfold OpenImpressionModal
  cases hdo : env.Do (viewsOpenRequest bot triggerID) with
  | error e => simp [hdo]
  | ok resp => by_cases h : resp.StatusCode = StatusOK <;> simp [hdo, h]

/-- What the handler does once the payload is decoded: the switch on
`data.Type`. -/
theorem HandleNewImpression_decoded (env : Env) (bot : HonestImpressionsBot) (r : Request)
    (data : Data) (s : Effects) (hform : r.ParseForm = none)
    (hpayload : r.PostFormValue "payload" ≠ "")
    (hdecode : Unmarshal env.parse (r.PostFormValue "payload") Data.zero = .ok data) :
    HandleNewImpression env bot r s =
      if data.Type_ == "shortcut" then
        match OpenImpressionModal env bot data.TriggerID s with
        | (some err, s) =>
          { s.logPrintf ("Failed to open modal: " ++ err) with
            w := Error s.w "failed to open modal" StatusInternalServerError }
        | (none, s) => { s with w := s.w.WriteHeader StatusOK }
      else if data.Type_ == "view_submission" then
        { s.logPrintf ("New honest impression : " ++ impressionOf data) with
          w := (s.w.SetHeader "Content-Type" "application/json").Write "\x7b\x7d" }
      else
        { s with w := Error s.w "unsupported interaction type" StatusBadRequest } := by
  simp [HandleNewImpression, hform, hpayload, hdecode, Effects.logPrintf]

/-! ## The claims -/

/-- C1: a request whose payload decodes as an interaction payload of type
`view_submission` is answered with status 200 and the body `{}`, whatever
`view.state.values` holds: the theorem asks nothing of the two keys. -/
theorem view_submission_acknowledged (env : Env) (bot : HonestImpressionsBot) (r : Request)
    (data : Data) (hform : r.ParseForm = none) (hpayload : r.PostFormValue "payload" ≠ "")
    (hdecode : Unmarshal env.parse (r.PostFormValue "payload") Data.zero = .ok data)
    (htype : data.Type_ = "view_submission") :
    (HandleNewImpression env bot r Effects.init).w.StatusCode = 200 ∧
      (HandleNewImpression env bot r Effects.init).w.body = "\x7b\x7d" := by
  rw [HandleNewImpression_decoded env bot r data _ hform hpayload hdecode]
  simp [htype, Effects.init, Effects.logPrintf, ResponseWriter.Write,
    ResponseWriter.WriteHeader, ResponseWriter.SetHeader, ResponseWriter.new,
    ResponseWriter.StatusCode]

/-- Witness of C1: a submission with no `view` member at all, so neither key
is there, is answered with 200 and `{}`. -/
theorem view_submission_acknowledged_witness :
    (requestWith bareSubmissionText).ParseForm = none ∧
      (requestWith bareSubmissionText).PostFormValue "payload" ≠ "" ∧
      (Data.mk "view_submission" "" ⟨"", ⟨[]⟩⟩).View.State.Values.lookup "impression_input"
        = none ∧
      (HandleNewImpression (answeringEnv 200 "") exampleBot (requestWith bareSubmissionText)
        Effects.init).w.StatusCode = 200 ∧
      (HandleNewImpression (answeringEnv 200 "") exampleBot (requestWith bareSubmissionText)
        Effects.init).w.body = "\x7b\x7d" :=
  ⟨rfl, by decide, rfl,
    view_submission_acknowledged (answeringEnv 200 "") exampleBot
      (requestWith bareSubmissionText) ⟨"view_submission", "", ⟨"", ⟨[]⟩⟩⟩ rfl (by decide)
      rfl rfl⟩

/-- C2: a request whose decoded payload has a type other than `shortcut` and
`view_submission` (the empty type of a payload without one included) is
answered with status 400. -/
theorem unsupported_type_bad_request (env : Env) (bot : HonestImpressionsBot) (r : Request)
    (data : Data) (hform : r.ParseForm = none) (hpayload : r.PostFormValue "payload" ≠ "")
    (hdecode : Unmarshal env.parse (r.PostFormValue "payload") Data.zero = .ok data)
    (hshortcut : data.Type_ ≠ "shortcut") (hsubmission : data.Type_ ≠ "view_submission") :
    (HandleNewImpression env bot r Effects.init).w.StatusCode = 400 := by
  rw [HandleNewImpression_decoded env bot r data _ hform hpayload hdecode]
  simp [hshortcut, hsubmission, Effects.init, ResponseWriter.new, Error_status,
    StatusBadRequest]

/-- Witness of C2: the payload `{}` has no type, it decodes to the empty
type, and the answer is 400. -/
theorem unsupported_type_bad_request_witness :
    Unmarshal (answeringEnv 200 "").parse ((requestWith emptyObjectText).PostFormValue "payload")
        Data.zero = .ok Data.zero ∧
      Data.zero.Type_ = "" ∧
      (HandleNewImpression (answeringEnv 200 "") exampleBot (requestWith emptyObjectText)
        Effects.init).w.StatusCode = 400 :=
  ⟨rfl, rfl,
    unsupported_type_bad_request (answeringEnv 200 "") exampleBot (requestWith emptyObjectText)
      Data.zero rfl (by decide) rfl (by decide) (by decide)⟩

/-- C3: when form parsing fails, or the `payload` field is missing or empty,
or the payload does not decode, the answer is 400 and no outbound call is
issued. -/
theorem malformed_request_bad_request (env : Env) (bot : HonestImpressionsBot) (r : Request)
    (h : r.ParseForm ≠ none ∨ r.PostFormValue "payload" = "" ∨
      ∃ e, Unmarshal env.parse (r.PostFormValue "payload") Data.zero = .error e) :
    (HandleNewImpression env bot r Effects.init).w.StatusCode = 400 ∧
      (HandleNewImpression env bot r Effects.init).calls = [] := by
  unfold HandleNewImpression
  cases hform : r.ParseForm with
  | some e => simp [Effects.init, ResponseWriter.new, Error_status, StatusBadRequest]
  | none =>
    by_cases hpayload : r.PostFormValue "payload" = ""
    · simp [hpayload, Effects.init, ResponseWriter.new, Error_status, StatusBadRequest]
    · rcases h with h | h | ⟨e, he⟩
      · exact absurd hform h
      · exact absurd h hpayload
      · simp [hpayload, he, Effects.init, ResponseWriter.new, Error_status, StatusBadRequest]

/-- Witness of C3: a form without a `payload` field. -/
theorem malformed_request_bad_request_witness :
    requestWithoutPayload.PostForm.lookup "payload" = none ∧
      requestWithoutPayload.PostFormValue "payload" = "" ∧
      (HandleNewImpression (answeringEnv 200 "") exampleBot requestWithoutPayload
        Effects.init).w.StatusCode = 400 ∧
      (HandleNewImpression (answeringEnv 200 "") exampleBot requestWithoutPayload
        Effects.init).calls = [] :=
  ⟨rfl, rfl,
    malformed_request_bad_request (answeringEnv 200 "") exampleBot requestWithoutPayload
      (Or.inr (Or.inl rfl))⟩

/-- C4: for a request whose decoded payload has type `shortcut` and a
non-empty `trigger_id`, the handler issues exactly one outbound call, a POST
to `views.open`, and the member `trigger_id` of its JSON body is that
`trigger_id`, unchanged. -/
theorem shortcut_one_call_with_trigger (env : Env) (bot : HonestImpressionsBot) (r : Request)
    (data : Data) (hform : r.ParseForm = none) (hpayload : r.PostFormValue "payload" ≠ "")
    (hdecode : Unmarshal env.parse (r.PostFormValue "payload") Data.zero = .ok data)
    (htype : data.Type_ = "shortcut") (_htrigger : data.TriggerID ≠ "") :
    ∃ call, (HandleNewImpression env bot r Effects.init).calls = [call] ∧
      call.Method = "POST" ∧ call.URL = "https://slack.com/api/views.open" ∧
      call.Body.get? "trigger_id" = some (.str data.TriggerID) := by
  refine ⟨viewsOpenRequest bot data.TriggerID, ?_, rfl, rfl, rfl⟩
  rw [HandleNewImpression_decoded env bot r data _ hform hpayload hdecode]
  have hcalls := OpenImpressionModal_calls env bot data.TriggerID Effects.init
  rcases hopen : OpenImpressionModal env bot data.TriggerID Effects.init with ⟨err, s⟩
  rw [hopen] at hcalls
  simp only at hcalls
  subst hcalls
  cases err <;> simp [htype, Effects.init, Effects.logPrintf]

/-- Witness of C4: the shortcut payload with trigger
`12345.98765.abcd2358fdea`, against a platform that cannot be reached. -/
theorem shortcut_one_call_with_trigger_witness :
    (Data.mk "shortcut" "12345.98765.abcd2358fdea" ⟨"", ⟨[]⟩⟩).TriggerID ≠ "" ∧
      ∃ call, (HandleNewImpression unreachableEnv exampleBot (requestWith shortcutText)
          Effects.init).calls = [call] ∧
        call.Method = "POST" ∧ call.URL = "https://slack.com/api/views.open" ∧
        call.Body.get? "trigger_id" = some (.str "12345.98765.abcd2358fdea") :=
  ⟨by decide,
    shortcut_one_call_with_trigger unreachableEnv exampleBot (requestWith shortcutText)
      ⟨"shortcut", "12345.98765.abcd2358fdea", ⟨"", ⟨[]⟩⟩⟩ rfl (by decide) rfl rfl
      (by decide)⟩

/-- C5: for a shortcut request, when the outbound call is answered with a
status other than 200 the inbound answer is 500, and the call was issued
once: there is no second attempt. -/
theorem shortcut_api_failure_no_retry (env : Env) (bot : HonestImpressionsBot) (r : Request)
    (data : Data) (resp : Response) (hform : r.ParseForm = none)
    (hpayload : r.PostFormValue "payload" ≠ "")
    (hdecode : Unmarshal env.parse (r.PostFormValue "payload") Data.zero = .ok data)
    (htype : data.Type_ = "shortcut")
    (hdo : env.Do (viewsOpenRequest bot data.TriggerID) = .ok resp)
    (hstatus : resp.StatusCode ≠ 200) :
    (HandleNewImpression env bot r Effects.init).w.StatusCode = 500 ∧
      (HandleNewImpression env bot r Effects.init).calls
        = [viewsOpenRequest bot data.TriggerID] := by
  have hstatus2 : ¬ resp.StatusCode = StatusOK := hstatus
  rw [HandleNewImpression_decoded env bot r data _ hform hpayload hdecode]
  simp [htype, OpenImpressionModal, hdo, hstatus2, Effects.init, Effects.logPrintf,
    ResponseWriter.new, Error_status, StatusInternalServerError]

/-- Witness of C5: the platform answers the shortcut with status 503. -/
theorem shortcut_api_failure_no_retry_witness :
    (answeringEnv 503 "unavailable").Do (viewsOpenRequest exampleBot "12345.98765.abcd2358fdea")
        = .ok ⟨503, "unavailable"⟩ ∧
      (HandleNewImpression (answeringEnv 503 "unavailable") exampleBot
        (requestWith shortcutText) Effects.init).w.StatusCode = 500 ∧
      (HandleNewImpression (answeringEnv 503 "unavailable") exampleBot
        (requestWith shortcutText) Effects.init).calls
        = [viewsOpenRequest exampleBot "12345.98765.abcd2358fdea"] :=
  ⟨rfl,
    shortcut_api_failure_no_retry (answeringEnv 503 "unavailable") exampleBot
      (requestWith shortcutText) ⟨"shortcut", "12345.98765.abcd2358fdea", ⟨"", ⟨[]⟩⟩⟩
      ⟨503, "unavailable"⟩ rfl (by decide) rfl rfl rfl (by decide)⟩

/-- C6, as stated, fails: the shortcut payload without a `trigger_id`
decodes to the empty `trigger_id`, and the handler issues the outbound call
with it, `trigger_id` being the empty string in the body. -/
theorem empty_trigger_id_is_sent :
    Unmarshal (answeringEnv 200 "").parse
        ((requestWith bareShortcutText).PostFormValue "payload") Data.zero
        = .ok ⟨"shortcut", "", ⟨"", ⟨[]⟩⟩⟩ ∧
      (HandleNewImpression (answeringEnv 200 "") exampleBot (requestWith bareShortcutText)
        Effects.init).calls = [viewsOpenRequest exampleBot ""] ∧
      (viewsOpenRequest exampleBot "").Body.get? "trigger_id" = some (.str "") :=
  ⟨rfl, rfl, rfl⟩

/-- C6, amended: every outbound call the handler issues is the `views.open`
call for a payload that decoded with type `shortcut`, and the `trigger_id`
it carries is that payload's `trigger_id` as decoded, so it is non-empty
exactly when the payload's is. -/
theorem outbound_call_carries_decoded_trigger (env : Env) (bot : HonestImpressionsBot)
    (r : Request) (call : ClientRequest)
    (hcall : call ∈ (HandleNewImpression env bot r Effects.init).calls) :
    ∃ data, Unmarshal env.parse (r.PostFormValue "payload") Data.zero = .ok data ∧
      data.Type_ = "shortcut" ∧ call = viewsOpenRequest bot data.TriggerID ∧
      call.Body.get? "trigger_id" = some (.str data.TriggerID) ∧
      (call.Body.get? "trigger_id" ≠ some (.str "") ↔ data.TriggerID ≠ "") := by
  cases hform : r.ParseForm with
  | some e => simp [HandleNewImpression, hform, Effects.init] at hcall
  | none =>
    by_cases hpayload : r.PostFormValue "payload" = ""
    · simp [HandleNewImpression, hform, hpayload, Effects.init] at hcall
    · cases hdecode : Unmarshal env.parse (r.PostFormValue "payload") Data.zero with
      | error e => simp [HandleNewImpression, hform, hpayload, hdecode, Effects.init] at hcall
      | ok data =>
        rw [HandleNewImpression_decoded env bot r data _ hform hpayload hdecode] at hcall
        by_cases htype : data.Type_ = "shortcut"
        · have hcalls := OpenImpressionModal_calls env bot data.TriggerID Effects.init
          rcases hopen : OpenImpressionModal env bot data.TriggerID Effects.init with ⟨err, s⟩
          rw [hopen] at hcalls hcall
          simp only at hcalls
          subst hcalls
          have hc : call = viewsOpenRequest bot data.TriggerID := by
            cases err <;> simpa [htype, Effects.init, Effects.logPrintf] using hcall
          subst hc
          refine ⟨data, rfl, htype, rfl, rfl, ?_⟩
          simp [viewsOpenRequest, JSON.get?, List.lookup]
        · by_cases hsub : data.Type_ = "view_submission" <;>
            simp [htype, hsub, Effects.init, Effects.logPrintf] at hcall

/-- Witness of the amended C6: the call issued for the shortcut payload with
trigger `12345.98765.abcd2358fdea`. -/
theorem outbound_call_carries_decoded_trigger_witness :
    viewsOpenRequest exampleBot "12345.98765.abcd2358fdea" ∈
        (HandleNewImpression (answeringEnv 200 "") exampleBot (requestWith shortcutText)
          Effects.init).calls ∧
      ∃ data, Unmarshal (answeringEnv 200 "").parse
          ((requestWith shortcutText).PostFormValue "payload") Data.zero = .ok data ∧
        data.Type_ = "shortcut" ∧
        viewsOpenRequest exampleBot "12345.98765.abcd2358fdea"
          = viewsOpenRequest exampleBot data.TriggerID ∧
        (viewsOpenRequest exampleBot "12345.98765.abcd2358fdea").Body.get? "trigger_id"
          = some (.str data.TriggerID) ∧
        ((viewsOpenRequest exampleBot "12345.98765.abcd2358fdea").Body.get? "trigger_id"
          ≠ some (.str "") ↔ data.TriggerID ≠ "") :=
  ⟨List.mem_singleton.mpr rfl,
    outbound_call_carries_decoded_trigger (answeringEnv 200 "") exampleBot
      (requestWith shortcutText) (viewsOpenRequest exampleBot "12345.98765.abcd2358fdea")
      (List.mem_singleton.mpr rfl)⟩

/-- C7: for every trigger token and every outcome of the outbound POST,
`OpenImpressionModal` returns the transport error when the call could not be
completed, an error whose message is `slack API error: ` followed by the
response body when the status is not 200, and nil when the status is 200,
whatever the body says. -/
theorem OpenImpressionModal_result (env : Env) (bot : HonestImpressionsBot)
    (triggerID : String) (s : Effects) :
    (∀ err, env.Do (viewsOpenRequest bot triggerID) = .error err →
        (OpenImpressionModal env bot triggerID s).1 = some err) ∧
      (∀ resp, env.Do (viewsOpenRequest bot triggerID) = .ok resp → resp.StatusCode ≠ 200 →
        (OpenImpressionModal env bot triggerID s).1
          = some ("slack API error: " ++ resp.Body)) ∧
      (∀ resp, env.Do (viewsOpenRequest bot triggerID) = .ok resp → resp.StatusCode = 200 →
        (OpenImpressionModal env bot triggerID s).1 = none) := by
  refine ⟨?_, ?_, ?_⟩
  · intro err hdo
    simp [OpenImpressionModal, hdo]
  · intro resp hdo hstatus
    have hstatus2 : ¬ resp.StatusCode = StatusOK := hstatus
    simp [OpenImpressionModal, hdo, hstatus2]
  · intro resp hdo hstatus
    have hstatus2 : resp.StatusCode = StatusOK := hstatus
    simp [OpenImpressionModal, hdo, hstatus2]

/-- Witness of C7: a refused connection, a 503 with a body, and a 200 whose
body reports `"ok": false`. -/
theorem OpenImpressionModal_result_witness :
    (OpenImpressionModal unreachableEnv exampleBot "T" Effects.init).1
        = some "dial tcp: connection refused" ∧
      (OpenImpressionModal (answeringEnv 503 "unavailable") exampleBot "T" Effects.init).1
        = some "slack API error: unavailable" ∧
      (OpenImpressionModal
          (answeringEnv 200 "\x7b\"ok\":false,\"error\":\"expired_trigger_id\"\x7d")
          exampleBot "T" Effects.init).1 = none :=
  ⟨(OpenImpressionModal_result unreachableEnv exampleBot "T" Effects.init).1 _ rfl,
    (OpenImpressionModal_result (answeringEnv 503 "unavailable") exampleBot "T"
      Effects.init).2.1 ⟨503, "unavailable"⟩ rfl (by decide),
    (OpenImpressionModal_result
      (answeringEnv 200 "\x7b\"ok\":false,\"error\":\"expired_trigger_id\"\x7d")
      exampleBot "T" Effects.init).2.2 _ rfl rfl⟩

/-- C8: for a shortcut request for which `OpenImpressionModal` returns nil,
the answer is status 200 with an empty body, not the `{}` of a submission. -/
theorem shortcut_success_empty_body (env : Env) (bot : HonestImpressionsBot) (r : Request)
    (data : Data) (hform : r.ParseForm = none) (hpayload : r.PostFormValue "payload" ≠ "")
    (hdecode : Unmarshal env.parse (r.PostFormValue "payload") Data.zero = .ok data)
    (htype : data.Type_ = "shortcut")
    (hopen : (OpenImpressionModal env bot data.TriggerID Effects.init).1 = none) :
    (HandleNewImpression env bot r Effects.init).w.StatusCode = 200 ∧
      (HandleNewImpression env bot r Effects.init).w.body = "" ∧
      (HandleNewImpression env bot r Effects.init).w.body ≠ "\x7b\x7d" := by
  have hcalls := OpenImpressionModal_calls env bot data.TriggerID Effects.init
  rw [HandleNewImpression_decoded env bot r data _ hform hpayload hdecode]
  rcases hres : OpenImpressionModal env bot data.TriggerID Effects.init with ⟨err, s⟩
  rw [hres] at hcalls hopen
  simp only at hcalls hopen
  subst hcalls hopen
  simp [htype, Effects.init, ResponseWriter.new, ResponseWriter.WriteHeader,
    ResponseWriter.StatusCode, StatusOK]

/-- Witness of C8: the shortcut payload, the platform answering 200. -/
theorem shortcut_success_empty_body_witness :
    (OpenImpressionModal (answeringEnv 200 "\x7b\"ok\":true\x7d") exampleBot
        "12345.98765.abcd2358fdea" Effects.init).1 = none ∧
      (HandleNewImpression (answeringEnv 200 "\x7b\"ok\":true\x7d") exampleBot
        (requestWith shortcutText) Effects.init).w.StatusCode = 200 ∧
      (HandleNewImpression (answeringEnv 200 "\x7b\"ok\":true\x7d") exampleBot
        (requestWith shortcutText) Effects.init).w.body = "" ∧
      (HandleNewImpression (answeringEnv 200 "\x7b\"ok\":true\x7d") exampleBot
        (requestWith shortcutText) Effects.init).w.body ≠ "\x7b\x7d" :=
  ⟨rfl,
    shortcut_success_empty_body (answeringEnv 200 "\x7b\"ok\":true\x7d") exampleBot
      (requestWith shortcutText) ⟨"shortcut", "12345.98765.abcd2358fdea", ⟨"", ⟨[]⟩⟩⟩
      rfl (by decide) rfl rfl rfl⟩

/-- C9: for a payload of type `view_submission` the handler logs one line,
`New honest impression : ` followed by the impression it extracts, and that
impression is the `Value` stored under `impression_input` and, there, under
`impression_value` when both keys are present, and the empty string when
either key is missing. -/
theorem view_submission_logs_impression (env : Env) (bot : HonestImpressionsBot)
    (r : Request) (data : Data) (hform : r.ParseForm = none)
    (hpayload : r.PostFormValue "payload" ≠ "")
    (hdecode : Unmarshal env.parse (r.PostFormValue "payload") Data.zero = .ok data)
    (htype : data.Type_ = "view_submission") :
    (HandleNewImpression env bot r Effects.init).log
        = ["New honest impression : " ++ impressionOf data] ∧
      (∀ block entry, data.View.State.Values.lookup "impression_input" = some block →
        block.lookup "impression_value" = some entry → impressionOf data = entry.Value) ∧
      (data.View.State.Values.lookup "impression_input" = none → impressionOf data = "") ∧
      (∀ block, data.View.State.Values.lookup "impression_input" = some block →
        block.lookup "impression_value" = none → impressionOf data = "") := by
  refine ⟨?_, ?_, ?_, ?_⟩
  · rw [HandleNewImpression_decoded env bot r data _ hform hpayload hdecode]
    simp [htype, Effects.init, Effects.logPrintf]
  · intro block entry hblock hentry
    simp [impressionOf, GoMap.index, hblock, hentry]
  · intro hblock
    simp [impressionOf, GoMap.index, hblock, Entry.zero]
  · intro block hblock hentry
    simp [impressionOf, GoMap.index, hblock, hentry, Entry.zero]

/-- Witness of C9, the scenario of the specification: the submission whose
value is `great job` is logged as `New honest impression : great job`. -/
theorem view_submission_logs_impression_witness :
    (answeringEnv 200 "").parse ((requestWith submissionText).PostFormValue "payload")
        = some (submissionFor "impression_input" "impression_value" "great job") ∧
      (HandleNewImpression (answeringEnv 200 "") exampleBot (requestWith submissionText)
        Effects.init).log = ["New honest impression : great job"] :=
  ⟨rfl,
    (view_submission_logs_impression (answeringEnv 200 "") exampleBot
      (requestWith submissionText)
      ⟨"view_submission", "", ⟨"", ⟨[("impression_input",
        [("impression_value", ⟨"great job"⟩)])]⟩⟩⟩ rfl (by decide) rfl rfl).1.trans
      (by decide)⟩

/-- C10: for every trigger token the view sent by `OpenImpressionModal` has
exactly one input block; its `block_id` is `impression_input` and the
`action_id` of its element is `impression_value`, the two keys the handler
reads; and for every string `s` the submission that stores `s` under these
two identifiers decodes, with type `view_submission`, to a payload from
which the handler extracts `s`: a request carrying that submission is logged
as `New honest impression : ` followed by `s`. -/
theorem modal_and_lookup_agree (bot : HonestImpressionsBot) (triggerID s : String) :
    ∃ view block blockId actionId data,
      (viewsOpenRequest bot triggerID).Body.get? "view" = some view ∧
      inputBlocks view = [block] ∧
      blockID block = some blockId ∧ actionID block = some actionId ∧
      blockId = "impression_input" ∧ actionId = "impression_value" ∧
      decodeData Data.zero (submissionFor blockId actionId s) = .ok data ∧
      data.Type_ = "view_submission" ∧ impressionOf data = s ∧
      ∀ (env : Env) (r : Request), r.ParseForm = none → r.PostFormValue "payload" ≠ "" →
        env.parse (r.PostFormValue "payload") = some (submissionFor blockId actionId s) →
        (HandleNewImpression env bot r Effects.init).log = ["New honest impression : " ++ s] := by
  refine ⟨modalView, _, "impression_input", "impression_value",
    ⟨"view_submission", "", ⟨"", ⟨[("impression_input", [("impression_value", ⟨s⟩)])]⟩⟩⟩,
    rfl, rfl, rfl, rfl, rfl, rfl, rfl, rfl, rfl, ?_⟩
  intro env r hform hpayload hparse
  have hdecode : Unmarshal env.parse (r.PostFormValue "payload") Data.zero
      = .ok ⟨"view_submission", "", ⟨"", ⟨[("impression_input",
          [("impression_value", ⟨s⟩)])]⟩⟩⟩ := by
    unfold Unmarshal
    rw [hparse]
    rfl
  rw [HandleNewImpression_decoded env bot r _ _ hform hpayload hdecode]
  have himp : impressionOf ⟨"view_submission", "", ⟨"", ⟨[("impression_input",
      [("impression_value", ⟨s⟩)])]⟩⟩⟩ = s := rfl
  simp [himp, Effects.init, Effects.logPrintf]

/-- Witness of C10: the input block of the modal, its two identifiers, and
the submission of `great job` built from them, which is the scenario's
document and is logged as `New honest impression : great job`. -/
theorem modal_and_lookup_agree_witness :
    ∃ view block blockId actionId,
      (viewsOpenRequest exampleBot "T").Body.get? "view" = some view ∧
      inputBlocks view = [block] ∧
      blockID block = some blockId ∧ actionID block = some actionId ∧
      (answeringEnv 200 "").parse ((requestWith submissionText).PostFormValue "payload")
        = some (submissionFor blockId actionId "great job") ∧
      (HandleNewImpression (answeringEnv 200 "") exampleBot (requestWith submissionText)
        Effects.init).log = ["New honest impression : " ++ "great job"] := by
  obtain ⟨view, block, blockId, actionId, _, hview, hblocks, hblock, haction, hb, ha, _, _, _,
    hlog⟩ := modal_and_lookup_agree exampleBot "T" "great job"
  subst hb ha
  exact ⟨view, block, _, _, hview, hblocks, hblock, haction, rfl,
    hlog (answeringEnv 200 "") (requestWith submissionText) rfl (by decide) rfl⟩

end HonestImpressions
